import Mathlib

/-!
A shallow embedding of the update-dispatch core of the `tbot` library
(`src/event_loop.rs`), together with theorems checking the natural-language
specification against it.

Strings are modelled as lists of codepoints (`List Char`): Rust's
`str::chars()` iterates codepoints, and entity offsets/lengths are counted in
codepoints.  The only byte-level operation the dispatcher performs is the
slice `token[1..]` in `parse_command`; slicing one byte off a string is valid
exactly when the first codepoint occupies one byte (codepoint < 128), which
the embedding checks explicitly.

Rust panics (`unwrap`, `expect`, `unreachable!`, overflowing `usize`
subtraction) are modelled as `Option`/`Except`-style failure values: a
function that can panic returns `Option _`, and the dispatch routers record
a `panicked` flag in their result.
-/

namespace Tbot

set_option maxRecDepth 2048

/-- Codepoint strings. -/
abbrev Str := List Char

/-- Models Rust `char::is_whitespace`, used by `split_whitespace` and by
`trim_command`'s `skip_while(|x| x.is_whitespace())`. -/
def isWsp (c : Char) : Bool := c.isWhitespace

/-- Modelled from the spec: the kinds of a `Text` formatting entity
(the `types` module carrying `MessageEntityKind` is not part of the provided
sources).  The dispatcher only ever distinguishes `BotCommand` from the
rest; all other kinds are collapsed into representative tags. -/
inductive MessageEntityKind where
  | BotCommand
  | Bold
  | Italic
  | Code
  | Mention
  | OtherKind (tag : Nat)
deriving DecidableEq, Repr

/-- Modelled from the spec: a formatting/semantic annotation over a sub-range
of a text message, with `offset` and `length` counted in codepoints. -/
structure MessageEntity where
  kind : MessageEntityKind
  offset : Nat
  length : Nat
deriving DecidableEq, Repr

/-- Modelled from the spec: a text payload — the literal value and its
ordered entity list. -/
structure Text where
  value : Str
  entities : List MessageEntity
deriving DecidableEq, Repr

/-- Modelled from the spec: the envelope fields common to every message
(numeric id, optional sender, timestamp, chat reference, optional
`edit_date`).  Payload-independent; the dispatcher only ever reads
`edit_date` and passes the rest through unchanged. -/
structure MessageData where
  id : Nat
  sender : Option Nat
  date : Nat
  chat : Nat
  edit_date : Option Nat
deriving DecidableEq, Repr

mutual

/-- Modelled from the spec: the tagged union of message payload kinds, one
constructor per variant listed in the data model.  Payloads whose internal
structure the dispatcher never inspects are opaque `Nat` tokens; captions
are `Text` values; `Pinned` nests a whole `Message`. -/
inductive MessageKind where
  | Text (text : Text)
  | Photo (photo : Nat) (caption : Text) (mediaGroupId : Option Nat)
  | Video (video : Nat) (caption : Text) (mediaGroupId : Option Nat)
  | Audio (audio : Nat) (caption : Text)
  | Document (document : Nat) (caption : Text)
  | Animation (animation : Nat) (caption : Text)
  | VideoNote (videoNote : Nat)
  | Voice (voice : Nat) (caption : Text)
  | Sticker (sticker : Nat)
  | Game (game : Nat)
  | Poll (poll : Nat)
  | Contact (contact : Nat)
  | Location (location : Nat)
  | Venue (venue : Nat)
  | Invoice (invoice : Nat)
  | SuccessfulPayment (payment : Nat)
  | PassportData (passport : Nat)
  | Pinned (message : Message)
  | NewChatMembers (members : List Nat)
  | LeftChatMember (member : Nat)
  | NewChatPhoto (photo : Nat)
  | ChatPhotoDeleted
  | NewChatTitle (title : Str)
  | GroupCreated
  | SupergroupCreated
  | ChannelCreated
  | MigrateTo (chatId : Nat)
  | MigrateFrom (chatId : Nat)

/-- Modelled from the spec: a message is its envelope plus exactly one
payload kind; `Message::new(data, kind)` is the constructor. -/
inductive Message where
  | new (data : MessageData) (kind : MessageKind)

end

/-- `Message::split`: lossless decomposition into (envelope, payload). -/
def Message.split : Message → MessageData × MessageKind
  | .new data kind => (data, kind)

/-- Modelled from the spec: the user who initiated a callback (the `types`
module defining `User` is not part of the provided sources; the dispatcher
passes it through untouched, so only an identifying field is modelled). -/
structure User where
  id : Nat
deriving DecidableEq, Repr

/-- `CallbackOrigin` (src/src/types/callback_query.rs): the callback comes
either from a message (`Message(Box<Message>)`) or from an inline message
with an id (`Inline(String)`). -/
inductive CallbackOrigin where
  | Message (message : Message)
  | Inline (id : Str)

/-- `CallbackKind` (src/src/types/callback_query.rs): the callback is sent
with some data (`Data(String)`) or to open a game (`Game(String)`). -/
inductive CallbackKind where
  | Data (data : Str)
  | Game (game : Str)

/-- `CallbackQuery` (src/src/types/callback_query.rs): id, initiating user,
origin, chat-instance identifier and kind.  The source field `from` is
rendered `sender` because `from` is a Lean keyword. -/
structure CallbackQuery where
  id : Str
  sender : User
  origin : CallbackOrigin
  chat_instance : Str
  kind : CallbackKind

/-- Modelled from the spec: the root update kinds matched by
`handle_update` in `src/event_loop.rs` (`Message`, `ChannelPost`,
`EditedMessage`, `EditedChannelPost`, `CallbackQuery`, `Poll`, `Unknown`). -/
inductive UpdateKind where
  | Message (message : Message)
  | ChannelPost (message : Message)
  | EditedMessage (message : Message)
  | EditedChannelPost (message : Message)
  | CallbackQuery (query : CallbackQuery)
  | Poll (poll : Nat)
  | Unknown

/-- Modelled from the spec: the root inbound event — numeric sequence id and
a kind. -/
structure Update where
  id : Nat
  kind : UpdateKind

/-! ## The command parser (`is_command`, `parse_command`, `trim_command`) -/

/-- `is_command` (src/event_loop.rs:1274):
`text.entities.get(0).map(|e| e.kind == BotCommand && e.offset == 0) == Some(true)`. -/
def is_command (text : Text) : Bool :=
  (text.entities.get? 0).map
      (fun entity =>
        entity.kind == MessageEntityKind.BotCommand && entity.offset == 0)
    == some true

/-- The first whitespace-delimited token of a string:
`value.split_whitespace().next()` — `none` when the string is empty or all
whitespace. -/
def firstToken (s : Str) : Option Str :=
  let rest := s.dropWhile isWsp
  if rest.isEmpty then none
  else some (rest.takeWhile (fun c => !isWsp c))

/-- `parse_command` (src/event_loop.rs:1281):
`text.value.split_whitespace().next().unwrap()[1..].split('@')`, then the
first piece is the command and the second (if any) the username.

`none` models a panic: of the `unwrap` when the value has no token, or of
the byte slice `[1..]` when the token's first codepoint is not a single
byte. -/
def parse_command (text : Text) : Option (Str × Option Str) :=
  match firstToken text.value with
  | none => none
  | some [] => none
  | some (c :: rest) =>
    if 128 ≤ c.toNat then none
    else
      let command := rest.takeWhile (fun x => x ≠ '@')
      let afterCommand := rest.dropWhile (fun x => x ≠ '@')
      match afterCommand with
      | [] => some (command, none)
      | _ :: tail => some (command, some (tail.takeWhile (fun x => x ≠ '@')))

/-- `trim_command` (src/event_loop.rs:1291): drop the first entity, drop its
`length` codepoints from the value plus the following whitespace run, and
shift every remaining entity's offset back by the number of codepoints
removed.

`none` models a panic: of `entities.next().unwrap()` when the entity list is
empty, or of the `usize` subtraction `entity.offset - (old_length -
new_length)` when it would underflow. -/
def trim_command (text : Text) : Option Text :=
  match text.entities with
  | [] => none
  | commandEntity :: rest =>
    let oldLength := text.value.length
    let value := (text.value.drop commandEntity.length).dropWhile isWsp
    let newLength := value.length
    let removed := oldLength - newLength
    if rest.all (fun entity => Nat.ble removed entity.offset) then
      some { value := value
             entities := rest.map (fun entity =>
               { kind := entity.kind
                 offset := entity.offset - removed
                 length := entity.length }) }
    else none

/-- A second reading of `parse_command`, following the spec's words rather
than the source: “takes the first whitespace-delimited token of the text
value, strips the leading `/`, then splits once on `@`; the part before `@`
is the command name, the part after (if any) is the target username.”
Splitting *once* keeps everything after the first `@` intact. -/
def parse_command_split_once (text : Text) : Option (Str × Option Str) :=
  match firstToken text.value with
  | none => none
  | some [] => none
  | some (c :: rest) =>
    if 128 ≤ c.toNat then none
    else
      let command := rest.takeWhile (fun x => x ≠ '@')
      let afterCommand := rest.dropWhile (fun x => x ≠ '@')
      match afterCommand with
      | [] => some (command, none)
      | _ :: tail => some (command, some tail)

/-! ## The dispatcher (`EventLoop`, `handle_update` and the sub-routers)

The registration state of an `EventLoop` is embedded as: the configured
username, the set of registered command names (`HashMap::contains_key`
becomes list membership), and one `Bool` per category recording whether at
least one handler is registered (`will_handle_*`).

Running the handlers of a category (`run_*_handlers`) is recorded as one
`Event` carrying exactly the data the corresponding context is constructed
from; dispatch of one update therefore produces a list of events plus a
flag recording whether a panic (`expect` / `unreachable!`) aborted it. -/

/-- One handler-invocation record per `run_*_handlers` call site in
`src/event_loop.rs`, carrying the data the context is built from. -/
inductive Event where
  | before (updateId : Nat)
  | after (updateId : Nat)
  | commandRun (command : Str) (data : MessageData) (text : Text)
  | editedCommandRun (command : Str) (data : MessageData) (editDate : Nat)
      (text : Text)
  | textRun (data : MessageData) (text : Text)
  | editedTextRun (data : MessageData) (editDate : Nat) (text : Text)
  | pollRun (data : MessageData) (poll : Nat)
  | photoRun (data : MessageData) (photo : Nat) (caption : Text)
      (mediaGroupId : Option Nat)
  | pinnedMessageRun (data : MessageData) (message : Message)
  | stickerRun (data : MessageData) (sticker : Nat)
  | venueRun (data : MessageData) (venue : Nat)
  | videoRun (data : MessageData) (video : Nat) (caption : Text)
      (mediaGroupId : Option Nat)
  | videoNoteRun (data : MessageData) (videoNote : Nat)
  | voiceRun (data : MessageData) (voice : Nat) (caption : Text)
  | audioRun (data : MessageData) (audio : Nat) (caption : Text)
  | animationRun (data : MessageData) (animation : Nat) (caption : Text)
  | deletedChatPhotoRun (data : MessageData)
  | documentRun (data : MessageData) (document : Nat) (caption : Text)
  | gameRun (data : MessageData) (game : Nat)
  | leftMemberRun (data : MessageData) (member : Nat)
  | locationRun (data : MessageData) (location : Nat)
  | migrationRun (data : MessageData) (oldChatId : Nat)
  | newChatPhotoRun (data : MessageData) (photo : Nat)
  | newChatTitleRun (data : MessageData) (title : Str)
  | newMembersRun (data : MessageData) (members : List Nat)
  | contactRun (data : MessageData) (contact : Nat)
  | createdGroupRun (data : MessageData)
  | editedAnimationRun (data : MessageData) (editDate : Nat)
      (animation : Nat) (caption : Text)
  | editedAudioRun (data : MessageData) (editDate : Nat) (audio : Nat)
      (caption : Text)
  | editedDocumentRun (data : MessageData) (editDate : Nat) (document : Nat)
      (caption : Text)
  | editedLocationRun (data : MessageData) (editDate : Nat) (location : Nat)
  | editedPhotoRun (data : MessageData) (editDate : Nat) (photo : Nat)
      (caption : Text) (mediaGroupId : Option Nat)
  | editedVideoRun (data : MessageData) (editDate : Nat) (video : Nat)
      (caption : Text) (mediaGroupId : Option Nat)
  | updatedPollRun (poll : Nat)
  | dataCallbackRun (id : Str) (sender : User) (origin : CallbackOrigin)
      (chatInstance : Str) (data : Str)
  | gameCallbackRun (id : Str) (sender : User) (origin : CallbackOrigin)
      (chatInstance : Str) (game : Str)
  | unhandledRun (update : UpdateKind)

/-- The observable outcome of one dispatch: the handler invocations that
happened, in order, and whether a panic aborted processing. -/
structure Run where
  events : List Event
  panicked : Bool

/-- The registration state of an `EventLoop<C>`: the configured username
plus, per category, whether a handler is registered (for commands, the set
of registered command names). -/
structure EventLoop where
  username : Option Str
  command_handlers : List Str
  edited_command_handlers : List Str
  text_handlers : Bool
  edited_text_handlers : Bool
  poll_handlers : Bool
  photo_handlers : Bool
  pinned_message_handlers : Bool
  sticker_handlers : Bool
  venue_handlers : Bool
  video_handlers : Bool
  video_note_handlers : Bool
  voice_handlers : Bool
  audio_handlers : Bool
  animation_handlers : Bool
  deleted_chat_photo_handlers : Bool
  document_handlers : Bool
  game_handlers : Bool
  left_member_handlers : Bool
  location_handlers : Bool
  migration_handlers : Bool
  new_chat_photo_handlers : Bool
  new_chat_title_handlers : Bool
  new_members_handlers : Bool
  contact_handlers : Bool
  created_group_handlers : Bool
  edited_animation_handlers : Bool
  edited_audio_handlers : Bool
  edited_document_handlers : Bool
  edited_location_handlers : Bool
  edited_photo_handlers : Bool
  edited_video_handlers : Bool
  updated_poll_handlers : Bool
  data_callback_handlers : Bool
  game_callback_handlers : Bool
  unhandled_handlers : Bool

/-- `is_for_this_bot` (src/event_loop.rs:1213):
`self.username.as_ref().map(|x| x == &username) == Some(true)` when an
explicit username is present, `true` otherwise. -/
def EventLoop.is_for_this_bot (self : EventLoop) (username : Option Str) :
    Bool :=
  match username with
  | some username => self.username.map (fun x => x == username) == some true
  | none => true

/-- `will_handle_unhandled`: at least one unhandled handler is registered. -/
def EventLoop.will_handle_unhandled (self : EventLoop) : Bool :=
  self.unhandled_handlers

/-- The three-branch policy every plain dispatch arm follows
(`if will_handle_x { run_x_handlers } else if will_handle_unhandled
{ run_unhandled_handlers(re-wrapped) }`): run the category's handlers when
registered, otherwise fall back to the unhandled channel when registered,
otherwise discard. -/
def dispatchOr (registered : Bool) (run : Event) (unhandled : Bool)
    (wrapped : UpdateKind) : Run :=
  if registered then ⟨[run], false⟩
  else if unhandled then ⟨[.unhandledRun wrapped], false⟩
  else ⟨[], false⟩

/-- The `MessageKind::Text` arm of `handle_message_update`
(src/event_loop.rs:695), including the command special case. -/
def EventLoop.route_text (self : EventLoop) (data : MessageData)
    (text : Text) : Run :=
  if is_command text then
    match parse_command text with
    | none => ⟨[], true⟩
    | some (command, username) =>
      if !self.is_for_this_bot username then ⟨[], false⟩
      else if self.command_handlers.contains command then
        match trim_command text with
        | none => ⟨[], true⟩
        | some text => ⟨[.commandRun command data text], false⟩
      else if self.will_handle_unhandled then
        ⟨[.unhandledRun (.Message (.new data (.Text text)))], false⟩
      else ⟨[], false⟩
  else
    dispatchOr self.text_handlers (.textRun data text)
      self.will_handle_unhandled (.Message (.new data (.Text text)))

/-- `handle_message_update` (src/event_loop.rs:691): the message-update
sub-router, one `dispatchOr` per payload arm, with the `Text` special case,
`MigrateTo` ignored on purpose and `SupergroupCreated`/`ChannelCreated`
`unreachable!` panics. -/
def EventLoop.handle_message_update (self : EventLoop)
    (message : Message) : Run :=
  let (data, kind) := message.split
  match kind with
  | .Text text => self.route_text data text
  | .Poll poll =>
    dispatchOr self.poll_handlers (.pollRun data poll)
      self.will_handle_unhandled (.Message (.new data (.Poll poll)))
  | .Photo photo caption mediaGroupId =>
    dispatchOr self.photo_handlers
      (.photoRun data photo caption mediaGroupId)
      self.will_handle_unhandled
      (.Message (.new data (.Photo photo caption mediaGroupId)))
  | .Pinned pinned =>
    dispatchOr self.pinned_message_handlers (.pinnedMessageRun data pinned)
      self.will_handle_unhandled (.Message (.new data (.Pinned pinned)))
  | .Sticker sticker =>
    dispatchOr self.sticker_handlers (.stickerRun data sticker)
      self.will_handle_unhandled (.Message (.new data (.Sticker sticker)))
  | .Venue venue =>
    dispatchOr self.venue_handlers (.venueRun data venue)
      self.will_handle_unhandled (.Message (.new data (.Venue venue)))
  | .Video video caption mediaGroupId =>
    dispatchOr self.video_handlers
      (.videoRun data video caption mediaGroupId)
      self.will_handle_unhandled
      (.Message (.new data (.Video video caption mediaGroupId)))
  | .VideoNote videoNote =>
    dispatchOr self.video_note_handlers (.videoNoteRun data videoNote)
      self.will_handle_unhandled
      (.Message (.new data (.VideoNote videoNote)))
  | .Voice voice caption =>
    dispatchOr self.voice_handlers (.voiceRun data voice caption)
      self.will_handle_unhandled
      (.Message (.new data (.Voice voice caption)))
  | .Audio audio caption =>
    dispatchOr self.audio_handlers (.audioRun data audio caption)
      self.will_handle_unhandled
      (.Message (.new data (.Audio audio caption)))
  | .Animation animation caption =>
    dispatchOr self.animation_handlers
      (.animationRun data animation caption)
      self.will_handle_unhandled
      (.Message (.new data (.Animation animation caption)))
  | .ChatPhotoDeleted =>
    dispatchOr self.deleted_chat_photo_handlers (.deletedChatPhotoRun data)
      self.will_handle_unhandled (.Message (.new data .ChatPhotoDeleted))
  | .Document document caption =>
    dispatchOr self.document_handlers (.documentRun data document caption)
      self.will_handle_unhandled
      (.Message (.new data (.Document document caption)))
  | .Game game =>
    dispatchOr self.game_handlers (.gameRun data game)
      self.will_handle_unhandled (.Message (.new data (.Game game)))
  | .LeftChatMember member =>
    dispatchOr self.left_member_handlers (.leftMemberRun data member)
      self.will_handle_unhandled
      (.Message (.new data (.LeftChatMember member)))
  | .Location location =>
    dispatchOr self.location_handlers (.locationRun data location)
      self.will_handle_unhandled (.Message (.new data (.Location location)))
  | .MigrateTo _ => ⟨[], false⟩
  | .MigrateFrom oldChatId =>
    dispatchOr self.migration_handlers (.migrationRun data oldChatId)
      self.will_handle_unhandled
      (.Message (.new data (.MigrateFrom oldChatId)))
  | .NewChatPhoto photo =>
    dispatchOr self.new_chat_photo_handlers (.newChatPhotoRun data photo)
      self.will_handle_unhandled (.Message (.new data (.NewChatPhoto photo)))
  | .NewChatTitle title =>
    dispatchOr self.new_chat_title_handlers (.newChatTitleRun data title)
      self.will_handle_unhandled (.Message (.new data (.NewChatTitle title)))
  | .NewChatMembers members =>
    dispatchOr self.new_members_handlers (.newMembersRun data members)
      self.will_handle_unhandled
      (.Message (.new data (.NewChatMembers members)))
  | .Contact contact =>
    dispatchOr self.contact_handlers (.contactRun data contact)
      self.will_handle_unhandled (.Message (.new data (.Contact contact)))
  | .GroupCreated =>
    dispatchOr self.created_group_handlers (.createdGroupRun data)
      self.will_handle_unhandled (.Message (.new data .GroupCreated))
  | .SupergroupCreated => ⟨[], true⟩
  | .ChannelCreated => ⟨[], true⟩
  | kind =>
    if self.will_handle_unhandled then
      ⟨[.unhandledRun (.Message (.new data kind))], false⟩
    else ⟨[], false⟩

/-- The `MessageKind::Text` arm of `handle_message_edit_update`
(src/event_loop.rs:1129), including the edited-command special case. -/
def EventLoop.route_edited_text (self : EventLoop) (data : MessageData)
    (edit_date : Nat) (text : Text) : Run :=
  if is_command text then
    match parse_command text with
    | none => ⟨[], true⟩
    | some (command, username) =>
      if !self.is_for_this_bot username then ⟨[], false⟩
      else if self.edited_command_handlers.contains command then
        match trim_command text with
        | none => ⟨[], true⟩
        | some text =>
          ⟨[.editedCommandRun command data edit_date text], false⟩
      else if self.will_handle_unhandled then
        ⟨[.unhandledRun (.EditedMessage (.new data (.Text text)))], false⟩
      else ⟨[], false⟩
  else
    dispatchOr self.edited_text_handlers (.editedTextRun data edit_date text)
      self.will_handle_unhandled (.EditedMessage (.new data (.Text text)))

/-- `handle_message_edit_update` (src/event_loop.rs:1037): the message-edit
sub-router.  `data.edit_date.expect(..)` panics when `edit_date` is absent;
the `Poll` arm and the service-message arm are `unreachable!` panics.  Note
that the `Animation`, `Audio`, `Document`, `Location`, `Photo` and `Video`
arms re-wrap a fall-through update as `UpdateKind::Message`, while the
`Text` arm and the final catch-all use `UpdateKind::EditedMessage`. -/
def EventLoop.handle_message_edit_update (self : EventLoop)
    (message : Message) : Run :=
  let (data, kind) := message.split
  match data.edit_date with
  | none => ⟨[], true⟩
  | some edit_date =>
    match kind with
    | .Animation animation caption =>
      dispatchOr self.edited_animation_handlers
        (.editedAnimationRun data edit_date animation caption)
        self.will_handle_unhandled
        (.Message (.new data (.Animation animation caption)))
    | .Audio audio caption =>
      dispatchOr self.edited_audio_handlers
        (.editedAudioRun data edit_date audio caption)
        self.will_handle_unhandled
        (.Message (.new data (.Audio audio caption)))
    | .Document document caption =>
      dispatchOr self.edited_document_handlers
        (.editedDocumentRun data edit_date document caption)
        self.will_handle_unhandled
        (.Message (.new data (.Document document caption)))
    | .Location location =>
      dispatchOr self.edited_location_handlers
        (.editedLocationRun data edit_date location)
        self.will_handle_unhandled
        (.Message (.new data (.Location location)))
    | .Photo photo caption mediaGroupId =>
      dispatchOr self.edited_photo_handlers
        (.editedPhotoRun data edit_date photo caption mediaGroupId)
        self.will_handle_unhandled
        (.Message (.new data (.Photo photo caption mediaGroupId)))
    | .Text text => self.route_edited_text data edit_date text
    | .Video video caption mediaGroupId =>
      dispatchOr self.edited_video_handlers
        (.editedVideoRun data edit_date video caption mediaGroupId)
        self.will_handle_unhandled
        (.Message (.new data (.Video video caption mediaGroupId)))
    | .Poll _ => ⟨[], true⟩
    | .NewChatMembers _ => ⟨[], true⟩
    | .LeftChatMember _ => ⟨[], true⟩
    | .ChatPhotoDeleted => ⟨[], true⟩
    | .NewChatPhoto _ => ⟨[], true⟩
    | .NewChatTitle _ => ⟨[], true⟩
    | .GroupCreated => ⟨[], true⟩
    | .SupergroupCreated => ⟨[], true⟩
    | .ChannelCreated => ⟨[], true⟩
    | .Pinned _ => ⟨[], true⟩
    | .MigrateTo _ => ⟨[], true⟩
    | .MigrateFrom _ => ⟨[], true⟩
    | kind =>
      if self.will_handle_unhandled then
        ⟨[.unhandledRun (.EditedMessage (.new data kind))], false⟩
      else ⟨[], false⟩

/-- The category-dispatch step of `handle_update` (src/event_loop.rs:614):
the `match update.kind` between the before-update and after-update hooks. -/
def EventLoop.dispatch_kind (self : EventLoop) (kind : UpdateKind) : Run :=
  match kind with
  | .Message message | .ChannelPost message =>
    self.handle_message_update message
  | .EditedMessage message | .EditedChannelPost message =>
    self.handle_message_edit_update message
  | .Poll poll =>
    if self.updated_poll_handlers then ⟨[.updatedPollRun poll], false⟩
    else if self.will_handle_unhandled then
      ⟨[.unhandledRun (.Poll poll)], false⟩
    else ⟨[], false⟩
  | .CallbackQuery query =>
    match query.kind with
    | .Data data =>
      if self.data_callback_handlers then
        ⟨[.dataCallbackRun query.id query.sender query.origin
            query.chat_instance data], false⟩
      else if self.will_handle_unhandled then
        ⟨[.unhandledRun (.CallbackQuery { query with kind := .Data data })],
         false⟩
      else ⟨[], false⟩
    | .Game game =>
      if self.game_callback_handlers then
        ⟨[.gameCallbackRun query.id query.sender query.origin
            query.chat_instance game], false⟩
      else if self.will_handle_unhandled then
        ⟨[.unhandledRun (.CallbackQuery { query with kind := .Game game })],
         false⟩
      else ⟨[], false⟩
  | .Unknown =>
    -- `run_unhandled_handlers` is called unconditionally here, but it only
    -- iterates the registered handlers: with none registered, no handler
    -- is invoked.
    ⟨if self.unhandled_handlers then [.unhandledRun .Unknown] else [], false⟩

/-- `handle_update` (src/event_loop.rs:609): build the update context, run
the before-update handlers, dispatch by kind, then — when dispatch did not
panic — run the after-update handlers on the same context. -/
def EventLoop.handle_update (self : EventLoop) (update : Update) : Run :=
  let dispatched := self.dispatch_kind update.kind
  { events :=
      Event.before update.id ::
        (dispatched.events ++
          if dispatched.panicked then [] else [Event.after update.id])
    panicked := dispatched.panicked }

/-! ## `fetch_username` (src/event_loop.rs:1234) -/

/-- Modelled from the spec: the `getMe` identity response (a `User` whose
`username` field may be absent) — the `types` module is not part of the
provided sources. -/
structure Me where
  id : Nat
  username : Option Str

/-- How a call of `fetch_username` terminates, as observed by its caller. -/
inductive FetchResult where
  | ok (username : Str)
  | panickedOnError (error : Nat)
  | panickedNoUsername

/-- `fetch_username` (src/event_loop.rs:1234), with the completed `getMe`
call as input: on `Err(error)` the method executes
`panic!("Error during fetching username: ..")`; on `Ok(me)` with no
username it executes `.expect("Expected the bot to have a username")`,
another panic; otherwise it stores the username via `self.username(..)`. -/
def fetch_username (getMe : Except Nat Me) : FetchResult :=
  match getMe with
  | .error error => .panickedOnError error
  | .ok me =>
    match me.username with
    | none => .panickedNoUsername
    | some username => .ok username

/-! ## Fixtures -/

/-- An event loop with nothing registered and no username configured. -/
def emptyLoop : EventLoop where
  username := none
  command_handlers := []
  edited_command_handlers := []
  text_handlers := false
  edited_text_handlers := false
  poll_handlers := false
  photo_handlers := false
  pinned_message_handlers := false
  sticker_handlers := false
  venue_handlers := false
  video_handlers := false
  video_note_handlers := false
  voice_handlers := false
  audio_handlers := false
  animation_handlers := false
  deleted_chat_photo_handlers := false
  document_handlers := false
  game_handlers := false
  left_member_handlers := false
  location_handlers := false
  migration_handlers := false
  new_chat_photo_handlers := false
  new_chat_title_handlers := false
  new_members_handlers := false
  contact_handlers := false
  created_group_handlers := false
  edited_animation_handlers := false
  edited_audio_handlers := false
  edited_document_handlers := false
  edited_location_handlers := false
  edited_photo_handlers := false
  edited_video_handlers := false
  updated_poll_handlers := false
  data_callback_handlers := false
  game_callback_handlers := false
  unhandled_handlers := false

/-- An event loop with only an unhandled handler registered. -/
def onlyUnhandled : EventLoop :=
  { emptyLoop with unhandled_handlers := true }

/-- A sample envelope carrying an `edit_date`. -/
def sampleEdited : MessageData :=
  { id := 10, sender := some 7, date := 1000, chat := 55,
    edit_date := some 2000 }

/-- An empty caption. -/
def noCaption : Text := { value := [], entities := [] }

/-- True exactly for the before-update/after-update hook events. -/
def Event.isHook : Event → Bool
  | .before _ => true
  | .after _ => true
  | _ => false

/-! ## Theorems -/

/-- Helper: `is_command` holds exactly when the first entity exists and is
a zero-offset `BotCommand`. -/
theorem is_command_head (t : Text) :
    is_command t = true ↔
      ∃ e es, t.entities = e :: es ∧
        e.kind = MessageEntityKind.BotCommand ∧ e.offset = 0 := by
  cases h : t.entities with
  | nil => simp [is_command, h]
  | cons e es => simp [is_command, h]

/-- C4: for every `Text` t, `is_command t` is true iff the entity list is
non-empty and its first entity has kind `BotCommand` and offset 0; in
particular `is_command` is false whenever the entity list is empty. -/
theorem is_command_iff_first_entity :
    (∀ t : Text, is_command t = true ↔
      ∃ e es, t.entities = e :: es ∧
        e.kind = MessageEntityKind.BotCommand ∧ e.offset = 0) ∧
    (∀ t : Text, t.entities = [] → is_command t = false) := by
  refine ⟨is_command_head, fun t h => ?_⟩
  rw [← Bool.not_eq_true]
  intro hc
  obtain ⟨e, es, he, -, -⟩ := (is_command_head t).mp hc
  rw [h] at he
  exact List.noConfusion he

/-- C4 witness: a one-entity command text and an entity-free text. -/
theorem is_command_iff_first_entity_witness :
    is_command { value := "/hi".toList,
                 entities := [⟨.BotCommand, 0, 3⟩] } = true ∧
    is_command { value := "hi".toList, entities := [] } = false :=
  ⟨(is_command_iff_first_entity.1 _).mpr ⟨_, _, rfl, rfl, rfl⟩,
   is_command_iff_first_entity.2 _ rfl⟩

/-- C8: a `MigrateTo` message is discarded unconditionally — whatever the
registration state (in particular with an unhandled handler registered and
no migration handler), the message sub-router invokes nothing and a full
`handle_update` run invokes only the before/after hooks. -/
theorem migrate_to_always_discarded
    (self : EventLoop) (data : MessageData) (chatId : Nat) (id : Nat) :
    self.handle_message_update (.new data (.MigrateTo chatId)) = ⟨[], false⟩ ∧
    (self.handle_update
        ⟨id, .Message (.new data (.MigrateTo chatId))⟩).events
      = [.before id, .after id] := by
  constructor <;> rfl

/-- C1: `is_for_this_bot` is true exactly when the explicit username is
absent or equals the configured username; and a command carrying an
explicit username for which `is_for_this_bot` is false makes both
sub-routers return with no handler invocation at all. -/
theorem command_for_other_bot_aborts_dispatch :
    (∀ (self : EventLoop) (username : Option Str),
      self.is_for_this_bot username = true ↔
        (username = none ∨ username = self.username)) ∧
    (∀ (self : EventLoop) (data : MessageData) (text : Text)
        (command : Str) (u : Str) (d : Nat),
      is_command text = true →
      parse_command text = some (command, some u) →
      self.is_for_this_bot (some u) = false →
      data.edit_date = some d →
      self.handle_message_update (.new data (.Text text)) = ⟨[], false⟩ ∧
      self.handle_message_edit_update (.new data (.Text text))
        = ⟨[], false⟩) := by
  constructor
  · intro self username
    cases username with
    | none => simp [EventLoop.is_for_this_bot]
    | some u =>
      cases hc : self.username with
      | none => simp [EventLoop.is_for_this_bot, hc]
      | some c =>
        have h0 : self.is_for_this_bot (some u)
            = (self.username.map (fun x => x == u) == some true) := rfl
        rw [h0, hc]
        constructor
        · intro h
          have hcu : c = u := by simpa using h
          exact Or.inr (by rw [hcu])
        · rintro (h | h)
          · exact Option.noConfusion h
          · have hu : u = c := by simpa using h
            simp [hu]
  · intro self data text command u d hc hp hb hd
    have e1 : self.handle_message_update (.new data (.Text text))
        = self.route_text data text := rfl
    have e2 : self.handle_message_edit_update (.new data (.Text text))
        = match data.edit_date with
          | none => (⟨[], true⟩ : Run)
          | some ed => self.route_edited_text data ed text := rfl
    constructor
    · rw [e1]
      simp [EventLoop.route_text, hc, hp, hb]
    · rw [e2, hd]
      simp [EventLoop.route_edited_text, hc, hp, hb]

/-- An event loop belonging to bot `mybot`, with `/start`, text and
unhandled handlers all registered. -/
def myBotLoop : EventLoop :=
  { onlyUnhandled with
    username := some "mybot".toList,
    text_handlers := true,
    command_handlers := ["start".toList] }

/-- `/start@otherbot`, a command explicitly addressed to another bot. -/
def otherBotText : Text :=
  { value := "/start@otherbot".toList, entities := [⟨.BotCommand, 0, 15⟩] }

/-- C1 witness: configured username `mybot`, incoming `/start@otherbot`. -/
theorem command_for_other_bot_aborts_dispatch_witness :
    myBotLoop.is_for_this_bot (some "otherbot".toList) = false ∧
    myBotLoop.handle_message_update (.new sampleEdited (.Text otherBotText))
      = ⟨[], false⟩ :=
  ⟨rfl,
   (command_for_other_bot_aborts_dispatch.2 myBotLoop sampleEdited
      otherBotText "start".toList "otherbot".toList 2000 rfl rfl rfl rfl).1⟩

/-- C2: evaluation at the failing input.  An update arriving as
`EditedMessage` with an `Animation` payload, dispatched against a loop with
only an unhandled handler registered, reaches the unhandled channel exactly
once — but re-wrapped as an ordinary `Message` update, not as an
edited-message update as the claim requires. -/
theorem edited_animation_unhandled_rewrapped_as_message :
    (onlyUnhandled.handle_update
        ⟨42, .EditedMessage (.new sampleEdited (.Animation 3 noCaption))⟩
      ).events
      = [.before 42,
         .unhandledRun
           (.Message (.new sampleEdited (.Animation 3 noCaption))),
         .after 42] := rfl

/-- C3 counterexample: an edited `Sticker` message with an unhandled handler
registered is delivered to the unhandled channel, not treated as a protocol
anomaly as the claim states. -/
theorem edited_sticker_delivered_to_unhandled :
    onlyUnhandled.handle_message_edit_update (.new sampleEdited (.Sticker 5))
      = ⟨[.unhandledRun (.EditedMessage (.new sampleEdited (.Sticker 5)))],
         false⟩ := rfl

/-- C3 amended: in the message-edit sub-router, the embedded `Poll` kind and
every service-message kind panic (`unreachable!`) with no handler invoked —
in particular nothing reaches the unhandled channel — while `Contact`,
`Game`, `Invoice`, `SuccessfulPayment`, `PassportData`, `Sticker`, `Venue`,
`VideoNote` and `Voice` fall through to the unhandled channel when an
unhandled handler is registered, and are silently discarded otherwise. -/
theorem edit_router_anomalies_vs_fallthrough
    (self : EventLoop) (data : MessageData) (p : Nat) (ms : List Nat)
    (t : Str) (pin : Message) (d : Nat)
    (hd : data.edit_date = some d) :
    (self.handle_message_edit_update (.new data (.Poll p)) = ⟨[], true⟩ ∧
     self.handle_message_edit_update (.new data (.NewChatMembers ms))
       = ⟨[], true⟩ ∧
     self.handle_message_edit_update (.new data (.LeftChatMember p))
       = ⟨[], true⟩ ∧
     self.handle_message_edit_update (.new data .ChatPhotoDeleted)
       = ⟨[], true⟩ ∧
     self.handle_message_edit_update (.new data (.NewChatPhoto p))
       = ⟨[], true⟩ ∧
     self.handle_message_edit_update (.new data (.NewChatTitle t))
       = ⟨[], true⟩ ∧
     self.handle_message_edit_update (.new data .GroupCreated)
       = ⟨[], true⟩ ∧
     self.handle_message_edit_update (.new data .SupergroupCreated)
       = ⟨[], true⟩ ∧
     self.handle_message_edit_update (.new data .ChannelCreated)
       = ⟨[], true⟩ ∧
     self.handle_message_edit_update (.new data (.Pinned pin))
       = ⟨[], true⟩ ∧
     self.handle_message_edit_update (.new data (.MigrateTo p))
       = ⟨[], true⟩ ∧
     self.handle_message_edit_update (.new data (.MigrateFrom p))
       = ⟨[], true⟩) ∧
    (∀ kind ∈ [MessageKind.Contact p, .Game p, .Invoice p,
        .SuccessfulPayment p, .PassportData p, .Sticker p, .Venue p,
        .VideoNote p, .Voice p noCaption],
      self.handle_message_edit_update (.new data kind)
        = if self.unhandled_handlers then
            ⟨[.unhandledRun (.EditedMessage (.new data kind))], false⟩
          else ⟨[], false⟩) := by
  constructor
  · refine ⟨?_, ?_, ?_, ?_, ?_, ?_, ?_, ?_, ?_, ?_, ?_, ?_⟩ <;>
      · show (match data.edit_date with
            | none => (⟨[], true⟩ : Run)
            | some _ => ⟨[], true⟩) = ⟨[], true⟩
        cases data.edit_date <;> rfl
  · intro kind hk
    obtain ⟨did, ds, dd, dc, ed⟩ := data
    obtain rfl : ed = some d := hd
    simp only [List.mem_cons, List.not_mem_nil, or_false] at hk
    rcases hk with h | h | h | h | h | h | h | h | h <;> subst h <;> rfl

/-- C3 amended witness: an edited embedded poll panics with no events; an
edited contact falls through to the registered unhandled handler. -/
theorem edit_router_anomalies_vs_fallthrough_witness :
    onlyUnhandled.handle_message_edit_update (.new sampleEdited (.Poll 1))
      = ⟨[], true⟩ ∧
    onlyUnhandled.handle_message_edit_update (.new sampleEdited (.Contact 6))
      = ⟨[.unhandledRun (.EditedMessage (.new sampleEdited (.Contact 6)))],
         false⟩ := by
  have h := edit_router_anomalies_vs_fallthrough onlyUnhandled sampleEdited
    6 [] [] (.new sampleEdited .GroupCreated) 2000 rfl
  refine ⟨h.1.1, ?_⟩
  have h2 := h.2 (MessageKind.Contact 6) (List.mem_cons_self _ _)
  rw [h2]
  rfl

/-- Category dispatch of a non-hook arm never emits a before/after event. -/
theorem dispatchOr_no_hooks (registered : Bool) (run : Event)
    (unhandled : Bool) (wrapped : UpdateKind) (h : run.isHook = false) :
    ∀ e ∈ (dispatchOr registered run unhandled wrapped).events,
      e.isHook = false := by
  intro e he
  unfold dispatchOr at he
  split at he
  · simp only [List.mem_singleton] at he
    rw [he, h]
  · split at he
    · simp only [List.mem_singleton] at he
      rw [he]
      rfl
    · exact absurd he (List.not_mem_nil e)

/-- The `Text` arms never emit a before/after event. -/
theorem route_text_no_hooks (self : EventLoop) (data : MessageData)
    (edit_date : Nat) (text : Text) :
    (∀ e ∈ (self.route_text data text).events, e.isHook = false) ∧
    (∀ e ∈ (self.route_edited_text data edit_date text).events,
      e.isHook = false) := by
  constructor
  · intro e he
    unfold EventLoop.route_text at he
    split at he
    · split at he
      · exact absurd he (List.not_mem_nil e)
      · split at he
        · exact absurd he (List.not_mem_nil e)
        · split at he
          · split at he
            · exact absurd he (List.not_mem_nil e)
            · simp only [List.mem_singleton] at he
              rw [he]
              rfl
          · split at he
            · simp only [List.mem_singleton] at he
              rw [he]
              rfl
            · exact absurd he (List.not_mem_nil e)
    · refine dispatchOr_no_hooks _ _ _ _ ?_ e he
      rfl
  · intro e he
    unfold EventLoop.route_edited_text at he
    split at he
    · split at he
      · exact absurd he (List.not_mem_nil e)
      · split at he
        · exact absurd he (List.not_mem_nil e)
        · split at he
          · split at he
            · exact absurd he (List.not_mem_nil e)
            · simp only [List.mem_singleton] at he
              rw [he]
              rfl
          · split at he
            · simp only [List.mem_singleton] at he
              rw [he]
              rfl
            · exact absurd he (List.not_mem_nil e)
    · refine dispatchOr_no_hooks _ _ _ _ ?_ e he
      rfl

/-- The message sub-router never emits a before/after event. -/
theorem handle_message_update_no_hooks (self : EventLoop)
    (message : Message) :
    ∀ e ∈ (self.handle_message_update message).events, e.isHook = false := by
  obtain ⟨data, kind⟩ := message
  cases kind
  case Text text => exact (route_text_no_hooks self data 0 text).1
  all_goals intro e he
  all_goals
    first
    | (refine dispatchOr_no_hooks _ _ _ _ ?_ e he
       rfl)
    | exact absurd he (List.not_mem_nil e)
    | (replace he :
          e ∈ (if self.will_handle_unhandled then
              Run.mk [.unhandledRun (.Message (.new data _))] false
            else Run.mk [] false).events := he
       split at he
       · simp only [List.mem_singleton] at he
         rw [he]
         rfl
       · exact absurd he (List.not_mem_nil e))

/-- The message-edit sub-router never emits a before/after event. -/
theorem handle_message_edit_update_no_hooks (self : EventLoop)
    (message : Message) :
    ∀ e ∈ (self.handle_message_edit_update message).events,
      e.isHook = false := by
  obtain ⟨⟨did, ds, dd, dc, ed⟩, kind⟩ := message
  cases ed with
  | none => intro e he; exact absurd he (List.not_mem_nil e)
  | some d =>
    cases kind
    case Text text =>
      exact (route_text_no_hooks self ⟨did, ds, dd, dc, some d⟩ d text).2
    all_goals intro e he
    all_goals
      first
      | (refine dispatchOr_no_hooks _ _ _ _ ?_ e he
         rfl)
      | exact absurd he (List.not_mem_nil e)
      | (replace he :
            e ∈ (if self.will_handle_unhandled then
                Run.mk
                  [.unhandledRun
                    (.EditedMessage (.new ⟨did, ds, dd, dc, some d⟩ _))]
                  false
              else Run.mk [] false).events := he
         split at he
         · simp only [List.mem_singleton] at he
           rw [he]
           rfl
         · exact absurd he (List.not_mem_nil e))

/-- Category dispatch (the `match update.kind` step of `handle_update`)
never emits a before/after event. -/
theorem dispatch_kind_no_hooks (self : EventLoop) (kind : UpdateKind) :
    ∀ e ∈ (self.dispatch_kind kind).events, e.isHook = false := by
  cases kind with
  | Message message => exact handle_message_update_no_hooks self message
  | ChannelPost message => exact handle_message_update_no_hooks self message
  | EditedMessage message =>
    exact handle_message_edit_update_no_hooks self message
  | EditedChannelPost message =>
    exact handle_message_edit_update_no_hooks self message
  | Poll poll =>
    intro e he
    exact dispatchOr_no_hooks self.updated_poll_handlers
      (.updatedPollRun poll) self.will_handle_unhandled (.Poll poll)
      rfl e he
  | CallbackQuery query =>
    intro e he
    obtain ⟨qid, qs, qo, qc, qkind⟩ := query
    cases qkind with
    | Data dataPayload =>
      replace he :
          e ∈ (if self.data_callback_handlers then
              Run.mk [.dataCallbackRun qid qs qo qc dataPayload] false
            else if self.will_handle_unhandled then
              Run.mk
                [.unhandledRun
                  (.CallbackQuery ⟨qid, qs, qo, qc, .Data dataPayload⟩)]
                false
            else Run.mk [] false).events := he
      split at he
      · simp only [List.mem_singleton] at he
        rw [he]
        rfl
      · split at he
        · simp only [List.mem_singleton] at he
          rw [he]
          rfl
        · exact absurd he (List.not_mem_nil e)
    | Game gamePayload =>
      replace he :
          e ∈ (if self.game_callback_handlers then
              Run.mk [.gameCallbackRun qid qs qo qc gamePayload] false
            else if self.will_handle_unhandled then
              Run.mk
                [.unhandledRun
                  (.CallbackQuery ⟨qid, qs, qo, qc, .Game gamePayload⟩)]
                false
            else Run.mk [] false).events := he
      split at he
      · simp only [List.mem_singleton] at he
        rw [he]
        rfl
      · split at he
        · simp only [List.mem_singleton] at he
          rw [he]
          rfl
        · exact absurd he (List.not_mem_nil e)
  | Unknown =>
    intro e he
    replace he :
        e ∈ (if self.unhandled_handlers then [Event.unhandledRun .Unknown]
          else []) := he
    split at he
    · simp only [List.mem_singleton] at he
      rw [he]
      rfl
    · exact absurd he (List.not_mem_nil e)

/-- C9: for every update whose category dispatch completes (does not
panic), `handle_update` first runs the before-update hook, then the
category handler invocations — none of which is a before/after hook — and
finally the after-update hook, both hooks carrying the same update context
(the same update id). -/
theorem before_after_bracket_dispatch (self : EventLoop) (update : Update)
    (h : (self.dispatch_kind update.kind).panicked = false) :
    ∃ mid,
      (self.handle_update update).events
        = Event.before update.id :: (mid ++ [Event.after update.id]) ∧
      ∀ e ∈ mid, e.isHook = false := by
  refine ⟨(self.dispatch_kind update.kind).events, ?_,
    dispatch_kind_no_hooks self update.kind⟩
  show Event.before update.id ::
      ((self.dispatch_kind update.kind).events ++
        if (self.dispatch_kind update.kind).panicked then []
        else [Event.after update.id])
    = _
  rw [h]
  simp

/-- C9 witness: an unknown-kind update against an empty loop. -/
theorem before_after_bracket_dispatch_witness :
    (emptyLoop.dispatch_kind UpdateKind.Unknown).panicked = false ∧
    ∃ mid,
      (emptyLoop.handle_update ⟨5, .Unknown⟩).events
        = Event.before 5 :: (mid ++ [Event.after 5]) ∧
      ∀ e ∈ mid, e.isHook = false :=
  ⟨rfl, before_after_bracket_dispatch emptyLoop ⟨5, .Unknown⟩ rfl⟩

/-- C10 counterexample: both failure modes of `fetch_username` — a failing
identity call and an identity response without a username — terminate in a
panic, not in a typed caller-facing error return (no `FetchResult` error
value exists; the only non-panic outcome is `ok`). -/
theorem fetch_username_failure_not_error_return :
    fetch_username (Except.error 0) = .panickedOnError 0 ∧
    fetch_username (Except.ok ⟨1, none⟩) = .panickedNoUsername :=
  ⟨rfl, rfl⟩

/-- C10 amended: `fetch_username` surfaces a failing identity call and an
absent username by panicking, and succeeds — storing the username — exactly
when the identity call succeeds with a username present. -/
theorem fetch_username_failure_panics :
    (∀ e : Nat, fetch_username (Except.error e) = .panickedOnError e) ∧
    (∀ me : Me, me.username = none →
      fetch_username (Except.ok me) = .panickedNoUsername) ∧
    (∀ (me : Me) (u : Str), me.username = some u →
      fetch_username (Except.ok me) = .ok u) := by
  refine ⟨fun e => rfl, fun me h => ?_, fun me u h => ?_⟩ <;>
    simp [fetch_username, h]

/-- C10 amended witness. -/
theorem fetch_username_failure_panics_witness :
    fetch_username (Except.error 3) = .panickedOnError 3 ∧
    fetch_username (Except.ok ⟨2, none⟩) = .panickedNoUsername ∧
    fetch_username (Except.ok ⟨2, some "mybot".toList⟩)
      = .ok "mybot".toList :=
  ⟨fetch_username_failure_panics.1 3,
   fetch_username_failure_panics.2.1 ⟨2, none⟩ rfl,
   fetch_username_failure_panics.2.2 ⟨2, some "mybot".toList⟩ _ rfl⟩

/-- `takeWhile` keeps a list all of whose elements satisfy the predicate. -/
theorem takeWhile_all_eq (p : Char → Bool) (l : Str)
    (h : ∀ a ∈ l, p a = true) : l.takeWhile p = l := by
  induction l with
  | nil => rfl
  | cons a l ih =>
    rw [List.takeWhile_cons_of_pos (h a (List.mem_cons_self a l))]
    rw [ih (fun b hb => h b (List.mem_cons_of_mem a hb))]

/-- `dropWhile` empties a list all of whose elements satisfy the
predicate. -/
theorem dropWhile_all_nil (p : Char → Bool) (l : Str)
    (h : ∀ a ∈ l, p a = true) : l.dropWhile p = [] := by
  induction l with
  | nil => rfl
  | cons a l ih =>
    rw [List.dropWhile_cons_of_pos (h a (List.mem_cons_self a l))]
    exact ih (fun b hb => h b (List.mem_cons_of_mem a hb))

/-- `takeWhile` passes over a prefix all of whose elements satisfy the
predicate. -/
theorem takeWhile_append_pos (p : Char → Bool) (l₁ l₂ : Str)
    (h : ∀ a ∈ l₁, p a = true) :
    (l₁ ++ l₂).takeWhile p = l₁ ++ l₂.takeWhile p := by
  induction l₁ with
  | nil => rfl
  | cons a l ih =>
    rw [List.cons_append,
      List.takeWhile_cons_of_pos (h a (List.mem_cons_self a l)),
      ih (fun b hb => h b (List.mem_cons_of_mem a hb)), List.cons_append]

/-- `dropWhile` skips a prefix all of whose elements satisfy the
predicate. -/
theorem dropWhile_append_pos (p : Char → Bool) (l₁ l₂ : Str)
    (h : ∀ a ∈ l₁, p a = true) :
    (l₁ ++ l₂).dropWhile p = l₂.dropWhile p := by
  induction l₁ with
  | nil => rfl
  | cons a l ih =>
    rw [List.cons_append,
      List.dropWhile_cons_of_pos (h a (List.mem_cons_self a l))]
    exact ih (fun b hb => h b (List.mem_cons_of_mem a hb))

/-- `dropWhile` drops exactly the length of the `takeWhile` prefix. -/
theorem dropWhile_eq_drop_len (p : Char → Bool) (l : Str) :
    l.dropWhile p = l.drop (l.takeWhile p).length := by
  induction l with
  | nil => rfl
  | cons a l ih =>
    by_cases h : p a
    · simp [List.dropWhile_cons_of_pos h, List.takeWhile_cons_of_pos h, ih]
    · simp [List.dropWhile_cons_of_neg h, List.takeWhile_cons_of_neg h]

/-- Dropping `length - (drop m).length` elements is the same as dropping
`m` elements. -/
theorem drop_length_sub_drop (v : Str) (m : Nat) :
    v.drop (v.length - (v.drop m).length) = v.drop m := by
  rw [List.length_drop]
  rcases Nat.le_total m v.length with h | h
  · have hm : v.length - (v.length - m) = m := by omega
    rw [hm]
  · have hm : v.length - (v.length - m) = v.length := by omega
    rw [hm, List.drop_eq_nil_of_le (Nat.le_refl _),
      List.drop_eq_nil_of_le h]

/-- Evaluating `parse_command` once the first token is known and starts
with a one-byte codepoint. -/
theorem parse_command_eval (t : Text) (c0 : Char) (tok : Str)
    (h : firstToken t.value = some (c0 :: tok)) (hc : c0.toNat < 128) :
    parse_command t =
      match tok.dropWhile (fun x => x ≠ '@') with
      | [] => some (tok.takeWhile (fun x => x ≠ '@'), none)
      | _ :: tail =>
        some (tok.takeWhile (fun x => x ≠ '@'),
          some (tail.takeWhile (fun x => x ≠ '@'))) := by
  unfold parse_command
  rw [h]
  simp only []
  rw [if_neg (by omega)]

/-- C6 counterexample: on the token `/a@b@c`, the source keeps only the
segment between the first and second `@` as the username (`b`), while the
split-once reading of the spec keeps everything after the first `@`
(`b@c`). -/
theorem parse_command_not_split_once :
    parse_command { value := "/a@b@c".toList,
                    entities := [⟨.BotCommand, 0, 6⟩] }
      = some ("a".toList, some "b".toList) ∧
    parse_command_split_once
        { value := "/a@b@c".toList, entities := [⟨.BotCommand, 0, 6⟩] }
      = some ("a".toList, some "b@c".toList) ∧
    parse_command { value := "/a@b@c".toList,
                    entities := [⟨.BotCommand, 0, 6⟩] }
      ≠ parse_command_split_once
          { value := "/a@b@c".toList, entities := [⟨.BotCommand, 0, 6⟩] } :=
  ⟨by decide, by decide, by decide⟩

/-- C6 amended: `parse_command` takes the first whitespace-delimited token,
strips its leading `/`, and splits it on `@` keeping the first two
segments: the part before the first `@` is the command and the segment
between the first and second `@` (if any) is the target username; on
`/foo@bar baz` this yields `(foo, some bar)`. -/
theorem parse_command_first_two_segments :
    (∀ (t : Text) (tok : Str),
      firstToken t.value = some ('/' :: tok) →
      ('@' ∉ tok → parse_command t = some (tok, none)) ∧
      (∀ c u rest2, tok = c ++ '@' :: (u ++ rest2) → '@' ∉ c → '@' ∉ u →
        (rest2 = [] ∨ ∃ r, rest2 = '@' :: r) →
        parse_command t = some (c, some u))) ∧
    parse_command { value := "/foo@bar baz".toList,
                    entities := [⟨.BotCommand, 0, 8⟩] }
      = some ("foo".toList, some "bar".toList) := by
  constructor
  · intro t tok h
    have heval := parse_command_eval t '/' tok h (by decide)
    constructor
    · intro hat
      have hall : ∀ a ∈ tok, (fun x => decide ¬(x = '@')) a = true :=
        fun a ha => decide_eq_true (fun he => hat (he ▸ ha))
      have hdrop : tok.dropWhile (fun x => x ≠ '@') = [] :=
        dropWhile_all_nil _ tok hall
      have htake : tok.takeWhile (fun x => x ≠ '@') = tok :=
        takeWhile_all_eq _ tok hall
      rw [heval, hdrop]
      simp only [htake]
    · intro c u rest2 htok hc hu hr
      subst htok
      have hallc : ∀ a ∈ c, (fun x => decide ¬(x = '@')) a = true :=
        fun a ha => decide_eq_true (fun he => hc (he ▸ ha))
      have hallu : ∀ a ∈ u, (fun x => decide ¬(x = '@')) a = true :=
        fun a ha => decide_eq_true (fun he => hu (he ▸ ha))
      have hdrop : (c ++ '@' :: (u ++ rest2)).dropWhile (fun x => x ≠ '@')
          = '@' :: (u ++ rest2) := by
        rw [dropWhile_append_pos _ c _ hallc,
          List.dropWhile_cons_of_neg (by simp)]
      have htake : (c ++ '@' :: (u ++ rest2)).takeWhile (fun x => x ≠ '@')
          = c := by
        rw [takeWhile_append_pos _ c _ hallc,
          List.takeWhile_cons_of_neg (by simp), List.append_nil]
      have htaku : (u ++ rest2).takeWhile (fun x => x ≠ '@') = u := by
        rcases hr with hr | ⟨r, hr⟩
        · subst hr
          rw [List.append_nil]
          exact takeWhile_all_eq _ u hallu
        · subst hr
          rw [takeWhile_append_pos _ u _ hallu,
            List.takeWhile_cons_of_neg (by simp), List.append_nil]
      rw [heval, hdrop]
      simp only [htake, htaku]
  · decide

/-- C6 amended witness: `/foo@bar baz` through the general splitting law. -/
theorem parse_command_first_two_segments_witness :
    parse_command { value := "/foo@bar baz".toList,
                    entities := [⟨.BotCommand, 0, 8⟩] }
      = some ("foo".toList, some "bar".toList) :=
  (parse_command_first_two_segments.1
      { value := "/foo@bar baz".toList, entities := [⟨.BotCommand, 0, 8⟩] }
      "foo@bar".toList (by decide)).2
    "foo".toList "bar".toList [] (by decide) (by decide) (by decide)
    (Or.inl rfl)

/-- The number of codepoints `trim_command` removes: the first entity's
length plus the following whitespace run (capped by the value length). -/
def removedCount (t : Text) : Nat :=
  match t.entities with
  | [] => 0
  | e :: _ =>
    t.value.length - ((t.value.drop e.length).dropWhile isWsp).length

/-- C7 counterexample: `is_command` alone does not make the parser total.
On the value `/ab` with a `BotCommand` entity of length 3 and a second
entity at offset 1, `is_command` holds, yet `trim_command` removes 3
codepoints and the re-based offset `1 - 3` underflows (a `usize` panic in
the source), so `trim_command` fails. -/
theorem trim_command_underflow_cex :
    is_command { value := "/ab".toList,
                 entities := [⟨.BotCommand, 0, 3⟩, ⟨.Bold, 1, 1⟩] } = true ∧
    trim_command { value := "/ab".toList,
                   entities := [⟨.BotCommand, 0, 3⟩, ⟨.Bold, 1, 1⟩] }
      = none := by
  constructor
  · decide
  · decide

/-- C7 amended: for a command text whose value has a first
whitespace-delimited token starting with a one-byte codepoint (as `/` is
for every real bot command) and whose remaining entities all sit at or
after the removed prefix, `parse_command` and `trim_command` evaluate
without failure: the entity list is non-empty, the first token exists and
can be sliced, and no offset re-basing underflows. -/
theorem command_parser_total_on_wellformed (t : Text)
    (hc : is_command t = true)
    (htok : ∃ c rest, firstToken t.value = some (c :: rest) ∧ c.toNat < 128)
    (hoff : ∀ e ∈ t.entities.tail, removedCount t ≤ e.offset) :
    (parse_command t).isSome = true ∧ (trim_command t).isSome = true := by
  constructor
  · obtain ⟨c, rest, h, hlt⟩ := htok
    rw [parse_command_eval t c rest h hlt]
    cases rest.dropWhile (fun x => x ≠ '@') <;> rfl
  · obtain ⟨e0, tl, he, -, -⟩ := (is_command_head t).mp hc
    unfold trim_command
    rw [he]
    simp only []
    rw [if_pos]
    · rfl
    · rw [List.all_eq_true]
      intro e hetl
      rw [Nat.ble_eq]
      have := hoff e (by rw [he]; exact hetl)
      rwa [removedCount, he] at this

/-- `/b x` with a trailing bold entity at offset 3: a well-formed command. -/
def boldAfterCommand : Text :=
  { value := "/b x".toList,
    entities := [⟨.BotCommand, 0, 2⟩, ⟨.Bold, 3, 1⟩] }

/-- C7 amended witness: the well-formed command `/b x`. -/
theorem command_parser_total_on_wellformed_witness :
    (parse_command boldAfterCommand).isSome = true ∧
    (trim_command boldAfterCommand).isSome = true :=
  command_parser_total_on_wellformed boldAfterCommand (by decide)
    ⟨'/', "b".toList, by decide, by decide⟩ (by decide)

/-- Evaluating `trim_command` on a non-empty entity list. -/
theorem trim_command_cons (v : Str) (e0 : MessageEntity)
    (tl : List MessageEntity) :
    trim_command { value := v, entities := e0 :: tl }
      = (if tl.all (fun e =>
            Nat.ble (v.length - ((v.drop e0.length).dropWhile isWsp).length)
              e.offset) then
          some { value := (v.drop e0.length).dropWhile isWsp,
                 entities := tl.map (fun e =>
                   { kind := e.kind,
                     offset := e.offset -
                       (v.length -
                         ((v.drop e0.length).dropWhile isWsp).length),
                     length := e.length }) }
        else none) := rfl

/-- C5: for a command text, `trim_command` removes exactly the command
entity's codepoints plus the immediately following whitespace run from the
front of the value (so the trimmed value is a `drop` of the original), and
shifts every remaining entity's offset back by exactly the number of
codepoints removed, so that each remaining entity addresses the same
codepoint span in the trimmed value as it did in the original. -/
theorem trim_command_exact (t t' : Text) (e0 : MessageEntity)
    (tl : List MessageEntity)
    (hc : is_command t = true)
    (he : t.entities = e0 :: tl)
    (ht : trim_command t = some t') :
    t'.value = t.value.drop (t.value.length - t'.value.length) ∧
    t.value.length - t'.value.length
      = min (e0.length + ((t.value.drop e0.length).takeWhile isWsp).length)
          t.value.length ∧
    t'.entities = tl.map (fun e =>
      { kind := e.kind,
        offset := e.offset - (t.value.length - t'.value.length),
        length := e.length }) ∧
    ∀ e ∈ tl,
      t.value.length - t'.value.length ≤ e.offset ∧
      (t'.value.drop
          (e.offset - (t.value.length - t'.value.length))).take e.length
        = (t.value.drop e.offset).take e.length := by
  obtain ⟨v, ents⟩ := t
  simp only at he
  subst he
  rw [trim_command_cons] at ht
  split at ht
  case isFalse => exact absurd ht (fun h => Option.noConfusion h)
  case isTrue hall =>
  obtain rfl := Option.some.inj ht
  dsimp only
  have hw : (v.drop e0.length).dropWhile isWsp
      = v.drop (e0.length + ((v.drop e0.length).takeWhile isWsp).length) := by
    rw [dropWhile_eq_drop_len isWsp (v.drop e0.length), List.drop_drop]
  have hlen : ((v.drop e0.length).dropWhile isWsp).length
      = v.length
        - (e0.length + ((v.drop e0.length).takeWhile isWsp).length) := by
    rw [hw, List.length_drop]
  have hval : (v.drop e0.length).dropWhile isWsp
      = v.drop
          (v.length - ((v.drop e0.length).dropWhile isWsp).length) := by
    conv_lhs => rw [hw]
    conv_rhs => rw [hw]
    exact (drop_length_sub_drop v _).symm
  refine ⟨hval, ?_, rfl, ?_⟩
  · rw [hlen]
    omega
  · intro e hetl
    have hble := (List.all_eq_true.mp hall) e hetl
    have hle : v.length - ((v.drop e0.length).dropWhile isWsp).length
        ≤ e.offset := by
      rw [← Nat.ble_eq]
      exact hble
    refine ⟨hle, ?_⟩
    rw [hlen] at hle
    rcases Nat.le_total
        (e0.length + ((v.drop e0.length).takeWhile isWsp).length)
        v.length with hcase | hcase
    · rw [hw, List.length_drop, List.drop_drop]
      congr 2
      omega
    · have hnil1 : (v.drop e0.length).dropWhile isWsp = [] := by
        rw [hw]
        exact List.drop_eq_nil_of_le (by omega)
      have hnil2 : v.drop e.offset = [] :=
        List.drop_eq_nil_of_le (by omega)
      rw [hnil1, hnil2]
      simp

/-- C5 witness: trimming `/b x` (bold entity on `x` at offset 3) moves the
bold entity to offset 0 over the same codepoint span. -/
theorem trim_command_exact_witness :
    ({ value := "x".toList, entities := [⟨.Bold, 0, 1⟩] } : Text).value
      = boldAfterCommand.value.drop
          (boldAfterCommand.value.length
            - ({ value := "x".toList,
                 entities := [⟨.Bold, 0, 1⟩] } : Text).value.length) ∧
    ({ value := "x".toList, entities := [⟨.Bold, 0, 1⟩] } : Text).entities
      = [(⟨.Bold, 3, 1⟩ : MessageEntity)].map (fun e =>
          { kind := e.kind,
            offset := e.offset
              - (boldAfterCommand.value.length
                - ({ value := "x".toList,
                     entities := [⟨.Bold, 0, 1⟩] } : Text).value.length),
            length := e.length }) :=
  have h := trim_command_exact boldAfterCommand
    { value := "x".toList, entities := [⟨.Bold, 0, 1⟩] }
    ⟨.BotCommand, 0, 2⟩ [⟨.Bold, 3, 1⟩] (by decide) rfl (by decide)
  ⟨h.1, h.2.2.1⟩

end Tbot
